import Mathlib

/-!
Shallow embedding of the OmnAIView-python backend-abstraction layer
(`datasources.py` and the WebSocket worker of `src/main.py`).

Python strings are modelled as `List Char`; Python `bytes` as `List ℕ`.
Python numbers are modelled exactly: `int` as `ℤ` and `float` as `PyRat`,
a normalized fraction (every concrete number appearing in a theorem below
is exactly representable as an IEEE-754 double, so the exact-fraction
model agrees with Python's float arithmetic at every evaluation point
used).  Raised exceptions are modelled with `Except PyErr`.
-/

set_option maxRecDepth 8192

/-- A Python `str`, modelled as its list of code points. -/
abbrev PyStr := List Char

/-- Exceptions that the embedded code can raise.  The first four
constructors are all subclasses of Python's `ValueError`
(`json.JSONDecodeError` and `UnicodeDecodeError` subclass it too). -/
inductive PyErr : Type where
  /-- the explicit
  `raise ValueError("Unsupported or malformed frame received from OmnAIScope.")` -/
  | valueErrorUnsupportedFrame : PyErr
  /-- `float(s)` failed: `ValueError: could not convert string to float` -/
  | valueErrorFloatConv (s : PyStr) : PyErr
  /-- `json.loads` failed (`json.JSONDecodeError`, a `ValueError`) -/
  | jsonDecodeError : PyErr
  /-- `bytes.decode()` failed (`UnicodeDecodeError`, a `ValueError`) -/
  | unicodeDecodeError : PyErr
  /-- a value of the wrong type was given to a `:02x`-style format spec -/
  | formatError : PyErr
  | keyError (k : PyStr) : PyErr
  | keyErrorInt (n : ℤ) : PyErr
  | indexError : PyErr
  | typeError : PyErr
  /-- attribute access failed (e.g. `self._uuids` before it was assigned,
  or `.get` on a non-dict) -/
  | attributeError (nm : PyStr) : PyErr
  /-- unbound local variable (`NameError`) -/
  | nameError (nm : PyStr) : PyErr
  /-- transport-level failure inside `requests.get` -/
  | requestsError : PyErr
  /-- `resp.raise_for_status()` raised `requests.HTTPError` -/
  | httpError (status : ℕ) : PyErr
deriving DecidableEq

/-- The constructors of `PyErr` that are (subclasses of) Python's
`ValueError`. -/
def PyErr.isValueErrorClass : PyErr → Bool
  | .valueErrorUnsupportedFrame => true
  | .valueErrorFloatConv _ => true
  | .jsonDecodeError => true
  | .unicodeDecodeError => true
  | _ => false

/-- An exact fraction (numerator, positive denominator, kept reduced by
the smart constructor `PyRat.mk2`), modelling a Python `float` value. -/
structure PyRat : Type where
  n : ℤ
  d : ℕ
deriving DecidableEq

/-- Normalizing constructor: divides out the gcd, so that equal values
built through it are structurally equal. -/
def PyRat.mk2 (n : ℤ) (d : ℕ) : PyRat :=
  let g := Nat.gcd n.natAbs d
  if g = 0 then ⟨0, 1⟩ else ⟨Int.tdiv n g, d / g⟩

/-- The rational value of a `PyRat`. -/
def PyRat.toRat (q : PyRat) : ℚ := (q.n : ℚ) / (q.d : ℚ)

/-- The exact value `m * 10 ^ e` (`e` may be negative), as produced when
parsing a decimal literal. -/
def PyRat.fromDecimal (m : ℤ) (e : ℤ) : PyRat :=
  if 0 ≤ e then ⟨m * (10 : ℤ) ^ e.toNat, 1⟩
  else PyRat.mk2 m ((10 : ℕ) ^ (-e).toNat)

/-- Python float multiplication by an integer constant (exact at the
evaluation points used here). -/
def PyRat.mulInt (q : PyRat) (k : ℤ) : PyRat := PyRat.mk2 (q.n * k) q.d

/-- Python `int(x)` on a float: truncation toward zero. -/
def PyRat.trunc (q : PyRat) : ℤ := Int.tdiv q.n (q.d : ℤ)

/-- Python 3 `round(x)` to an integer: round-half-to-even. -/
def PyRat.pyRound (q : PyRat) : ℤ :=
  let f := Int.ediv q.n (q.d : ℤ)
  let r := q.n - f * (q.d : ℤ)
  if 2 * r < (q.d : ℤ) then f
  else if (q.d : ℤ) < 2 * r then f + 1
  else if Int.emod f 2 = 0 then f else f + 1

/-- A Python value as produced by `json.loads` (Python's `json`
distinguishes `int` from `float`, so the model does too). -/
inductive JsonVal : Type where
  | intVal (n : ℤ) : JsonVal
  | floatVal (q : PyRat) : JsonVal
  | str (s : PyStr) : JsonVal
  | bool (b : Bool) : JsonVal
  | null : JsonVal
  | arr (xs : List JsonVal) : JsonVal
  | obj (fields : List (PyStr × JsonVal)) : JsonVal

/-- One inbound WebSocket frame: either a text frame or a binary frame
(a list of byte values). -/
inductive Frame : Type where
  | text (s : PyStr) : Frame
  | binary (bs : List ℕ) : Frame
deriving DecidableEq

/-- Lowercase hexadecimal digit for `n < 16`. -/
def hexDigitChar (n : ℕ) : Char :=
  if n < 10 then Char.ofNat (48 + n) else Char.ofNat (87 + n)

/-- Hex digits of `n` (most significant first), via fuel recursion. -/
def natToHexAux : ℕ → ℕ → List Char
  | 0, _ => []
  | fuel + 1, n =>
    if n = 0 then []
    else natToHexAux fuel (n / 16) ++ [hexDigitChar (n % 16)]

/-- Lowercase hex representation of a natural number, as Python's
`format(n, "x")` produces it. -/
def natToHex (n : ℕ) : List Char :=
  if n = 0 then ['0'] else natToHexAux (n + 1) n

/-- Left-pad with `'0'` to width `w`. -/
def padZero (w : ℕ) (ds : List Char) : List Char :=
  List.replicate (w - ds.length) '0' ++ ds

/-- Python `f"{n:0wx}"` for an `int` `n`: lowercase hex, zero-padded to
total width `w` (the sign, if any, counts toward the width). -/
def pyFormatHex (w : ℕ) (n : ℤ) : List Char :=
  if n < 0 then '-' :: padZero (w - 1) (natToHex n.natAbs)
  else padZero w (natToHex n.toNat)

/-- JSON whitespace characters. -/
def isJsonWs (c : Char) : Bool :=
  c = ' ' || c = '\t' || c = '\n' || c = '\r'

/-- Drop leading JSON whitespace. -/
def skipWs : PyStr → PyStr
  | [] => []
  | c :: cs => if isJsonWs c then skipWs cs else c :: cs

/-- Numeric value of a decimal digit character. -/
def digitVal (c : Char) : ℕ := c.toNat - 48

/-- Read a maximal run of decimal digits; returns the digits and the rest. -/
def takeDigits : PyStr → (List Char × PyStr)
  | [] => ([], [])
  | c :: cs =>
    if c.isDigit then
      let (ds, rest) := takeDigits cs
      (c :: ds, rest)
    else ([], c :: cs)

/-- Natural-number value of a digit string. -/
def digitsToNat (ds : List Char) : ℕ :=
  ds.foldl (fun acc c => 10 * acc + digitVal c) 0

/-- Parse the body of a JSON string (after the opening quote), with the
usual escapes (`\uXXXX` restricted to non-surrogate code points). -/
def parseJsonStringBody : ℕ → PyStr → Option (PyStr × PyStr)
  | 0, _ => none
  | _, [] => none
  | fuel + 1, c :: cs =>
    if c = '"' then some ([], cs)
    else if c = '\\' then
      match cs with
      | [] => none
      | e :: cs2 =>
        let esc : Option (Char × PyStr) :=
          if e = '"' then some ('"', cs2)
          else if e = '\\' then some ('\\', cs2)
          else if e = '/' then some ('/', cs2)
          else if e = 'n' then some ('\n', cs2)
          else if e = 't' then some ('\t', cs2)
          else if e = 'r' then some ('\r', cs2)
          else if e = 'b' then some (Char.ofNat 8, cs2)
          else if e = 'f' then some (Char.ofNat 12, cs2)
          else if e = 'u' then
            match cs2 with
            | h1 :: h2 :: h3 :: h4 :: cs3 =>
              let hv? (h : Char) : Option ℕ :=
                if h.isDigit then some (h.toNat - 48)
                else if 'a' ≤ h ∧ h ≤ 'f' then some (h.toNat - 87)
                else if 'A' ≤ h ∧ h ≤ 'F' then some (h.toNat - 55)
                else none
              match hv? h1, hv? h2, hv? h3, hv? h4 with
              | some a, some b, some c, some d =>
                let v := 4096 * a + 256 * b + 16 * c + d
                if 0xD800 ≤ v ∧ v ≤ 0xDFFF then none
                else some (Char.ofNat v, cs3)
              | _, _, _, _ => none
            | _ => none
          else none
        match esc with
        | some (ch, rest) =>
          match parseJsonStringBody fuel rest with
          | some (tail, rest2) => some (ch :: tail, rest2)
          | none => none
        | none => none
    else if c.toNat < 32 then none
    else
      match parseJsonStringBody fuel cs with
      | some (tail, rest2) => some (c :: tail, rest2)
      | none => none

/-- Parse a JSON number (RFC 8259 grammar), yielding `intVal` when it has
neither fraction nor exponent and `floatVal` otherwise, exactly as
Python's `json.loads` distinguishes `int` from `float`. -/
def parseJsonNumber (s : PyStr) : Option (JsonVal × PyStr) :=
  let (neg, s1) := match s with
    | '-' :: r => (true, r)
    | _ => (false, s)
  let (ints, s2) := takeDigits s1
  if ints = [] then none
  else if ints.head? = some '0' ∧ 1 < ints.length then none
  else
    let (hasFrac, fracs, s3) := match s2 with
      | '.' :: r =>
        let (ds, rest) := takeDigits r
        (true, ds, rest)
      | _ => (false, [], s2)
    if hasFrac ∧ fracs = [] then none
    else
      let expRes : Option (Bool × ℤ × PyStr) := match s3 with
        | 'e' :: r | 'E' :: r =>
          let (eneg, r1) := match r with
            | '-' :: r2 => (true, r2)
            | '+' :: r2 => (false, r2)
            | _ => (false, r)
          let (eds, r3) := takeDigits r1
          if eds = [] then none
          else
            let ev : ℤ := digitsToNat eds
            some (true, if eneg then -ev else ev, r3)
        | _ => some (false, 0, s3)
      match expRes with
      | none => none
      | some (hasExp, ev, s4) =>
        let mNat : ℕ := digitsToNat (ints ++ fracs)
        let m : ℤ := if neg then -(mNat : ℤ) else (mNat : ℤ)
        if hasFrac ∨ hasExp then
          some (.floatVal (PyRat.fromDecimal m (ev - fracs.length)), s4)
        else some (.intVal m, s4)

/-- Insert one `key := value` binding with Python-`dict` semantics: a
repeated key keeps its first position but takes the latest value. -/
def pyDictUpdateStr (d : List (PyStr × JsonVal)) (k : PyStr) (v : JsonVal) :
    List (PyStr × JsonVal) :=
  if d.any (fun p => p.1 = k) then
    d.map (fun p => if p.1 = k then (k, v) else p)
  else d ++ [(k, v)]

mutual
/-- One JSON value, returning the remaining input.  Fuel-indexed so that
the recursion is structural (the kernel can evaluate it). -/
def parseJsonValue : ℕ → PyStr → Option (JsonVal × PyStr)
  | 0, _ => none
  | fuel + 1, s =>
    match skipWs s with
    | '{' :: r =>
      (match skipWs r with
       | '}' :: r2 => some (.obj [], r2)
       | r2 => parseJsonMembers fuel r2 [])
    | '[' :: r =>
      (match skipWs r with
       | ']' :: r2 => some (.arr [], r2)
       | r2 => parseJsonElements fuel r2 [])
    | '"' :: r =>
      (match parseJsonStringBody (r.length + 1) r with
       | some (str, rest) => some (.str str, rest)
       | none => none)
    | 't' :: 'r' :: 'u' :: 'e' :: r => some (.bool true, r)
    | 'f' :: 'a' :: 'l' :: 's' :: 'e' :: r => some (.bool false, r)
    | 'n' :: 'u' :: 'l' :: 'l' :: r => some (.null, r)
    | r => parseJsonNumber r
termination_by structural fuel => fuel

/-- The members of a JSON object, accumulated with `dict` semantics. -/
def parseJsonMembers : ℕ → PyStr → List (PyStr × JsonVal) →
    Option (JsonVal × PyStr)
  | 0, _, _ => none
  | fuel + 1, s, acc =>
    match s with
    | '"' :: r =>
      (match parseJsonStringBody (r.length + 1) r with
       | some (key, rest) =>
         (match skipWs rest with
          | ':' :: rest2 =>
            (match parseJsonValue fuel rest2 with
             | some (v, rest3) =>
               let acc2 := pyDictUpdateStr acc key v
               (match skipWs rest3 with
                | ',' :: rest4 => parseJsonMembers fuel (skipWs rest4) acc2
                | '}' :: rest4 => some (.obj acc2, rest4)
                | _ => none)
             | none => none)
          | _ => none)
       | none => none)
    | _ => none
termination_by structural fuel => fuel

/-- The elements of a JSON array. -/
def parseJsonElements : ℕ → PyStr → List JsonVal → Option (JsonVal × PyStr)
  | 0, _, _ => none
  | fuel + 1, s, acc =>
    match parseJsonValue fuel s with
    | some (v, rest) =>
      (match skipWs rest with
       | ',' :: rest2 => parseJsonElements fuel rest2 (acc ++ [v])
       | ']' :: rest2 => some (.arr (acc ++ [v]), rest2)
       | _ => none)
    | none => none
termination_by structural fuel => fuel
end

/-- Python's `json.loads`: parse one JSON document, requiring the whole
input to be consumed (up to trailing whitespace). -/
def jsonLoads (s : PyStr) : Option JsonVal :=
  match parseJsonValue (2 * s.length + 2) s with
  | some (v, rest) => if skipWs rest = [] then some v else none
  | none => none

/-- Whitespace stripped by Python's `float(str)`. -/
def isPyWs (c : Char) : Bool :=
  c = ' ' || c = '\t' || c = '\n' || c = '\r' || c.toNat = 11 || c.toNat = 12

/-- Strip leading and trailing whitespace. -/
def trimPyWs (s : PyStr) : PyStr :=
  ((s.dropWhile isPyWs).reverse.dropWhile isPyWs).reverse

/-- Python's `float(str)` on finite decimal literals
(`[+-]? (digits [. digits*] | . digits+) ([eE] [+-]? digits)?`, with
surrounding whitespace allowed).  The special spellings `inf`/`nan` and
digit-group underscores are not modelled; no frame considered below uses
them. -/
def pyFloat (s : PyStr) : Option PyRat :=
  let t := trimPyWs s
  let (neg, t1) := match t with
    | '-' :: r => (true, r)
    | '+' :: r => (false, r)
    | _ => (false, t)
  let (ints, t2) := takeDigits t1
  let (fracs, t3) := match t2 with
    | '.' :: r => takeDigits r
    | _ => ([], t2)
  if ints = [] ∧ fracs = [] then none
  else
    let expRes : Option (ℤ × PyStr) := match t3 with
      | 'e' :: r | 'E' :: r =>
        let (eneg, r1) := match r with
          | '-' :: r2 => (true, r2)
          | '+' :: r2 => (false, r2)
          | _ => (false, r)
        let (eds, r3) := takeDigits r1
        if eds = [] then none
        else some ((if eneg then -(digitsToNat eds : ℤ) else (digitsToNat eds : ℤ)), r3)
      | _ => some (0, t3)
    match expRes with
    | none => none
    | some (ev, t4) =>
      if t4 = [] then
        let mNat : ℕ := digitsToNat (ints ++ fracs)
        let m : ℤ := if neg then -(mNat : ℤ) else (mNat : ℤ)
        some (PyRat.fromDecimal m (ev - fracs.length))
      else none

/-- Strict UTF-8 decoding (continuation-byte ranges exclude overlong
encodings and surrogates, as CPython's `bytes.decode()` does). -/
def utf8Decode : ℕ → List ℕ → Option PyStr
  | 0, _ => none
  | _, [] => some []
  | fuel + 1, b :: rest =>
    if b < 0x80 then (utf8Decode fuel rest).map (Char.ofNat b :: ·)
    else if b < 0xC2 then none
    else if b ≤ 0xDF then
      match rest with
      | b1 :: rest2 =>
        if 0x80 ≤ b1 ∧ b1 ≤ 0xBF then
          (utf8Decode fuel rest2).map
            (Char.ofNat ((b - 0xC0) * 64 + (b1 - 0x80)) :: ·)
        else none
      | _ => none
    else if b ≤ 0xEF then
      match rest with
      | b1 :: b2 :: rest2 =>
        if (if b = 0xE0 then 0xA0 else 0x80) ≤ b1 ∧
            b1 ≤ (if b = 0xED then 0x9F else 0xBF) ∧
            0x80 ≤ b2 ∧ b2 ≤ 0xBF then
          (utf8Decode fuel rest2).map
            (Char.ofNat ((b - 0xE0) * 4096 + (b1 - 0x80) * 64 + (b2 - 0x80)) :: ·)
        else none
      | _ => none
    else if b ≤ 0xF4 then
      match rest with
      | b1 :: b2 :: b3 :: rest2 =>
        if (if b = 0xF0 then 0x90 else 0x80) ≤ b1 ∧
            b1 ≤ (if b = 0xF4 then 0x8F else 0xBF) ∧
            0x80 ≤ b2 ∧ b2 ≤ 0xBF ∧ 0x80 ≤ b3 ∧ b3 ≤ 0xBF then
          (utf8Decode fuel rest2).map
            (Char.ofNat ((b - 0xF0) * 262144 + (b1 - 0x80) * 4096 +
              (b2 - 0x80) * 64 + (b3 - 0x80)) :: ·)
        else none
      | _ => none
    else none

/-- Python `bytes.decode()` (UTF-8, strict). -/
def pyBytesDecode (bs : List ℕ) : Option PyStr := utf8Decode (bs.length + 1) bs

/-- Lookup in a Python `dict` modelled as an association list. -/
def pyDictGet (fields : List (PyStr × JsonVal)) (k : PyStr) : Option JsonVal :=
  ((fields.filter (fun p => p.1 = k)).getLast?).map Prod.snd

/-- Python truthiness of a value. -/
def pyTruthy : JsonVal → Bool
  | .intVal n => n ≠ 0
  | .floatVal q => q.n ≠ 0
  | .str s => s ≠ []
  | .bool b => b
  | .null => false
  | .arr xs => !xs.isEmpty
  | .obj fs => !fs.isEmpty

/-- Python's `k in v` for a string `k`: key membership for a dict,
element membership for a list (where only `str` elements can compare
equal to `k`); other operand types raise `TypeError` (a `str` operand
cannot arise at its use sites, since `json.loads` of a `{`/`[`-headed
document never returns a string). -/
def pyInStr (k : PyStr) : JsonVal → Except PyErr Bool
  | .obj fs => .ok (pyDictGet fs k).isSome
  | .arr xs => .ok (xs.any (fun x => match x with
      | .str s => s = k
      | _ => false))
  | _ => .error .typeError

/-- Python subscript `v[k]` for a string key: dict lookup (`KeyError`
when absent); lists and other types raise `TypeError`. -/
def pyGetItemStr (v : JsonVal) (k : PyStr) : Except PyErr JsonVal :=
  match v with
  | .obj fs =>
    match pyDictGet fs k with
    | some x => .ok x
    | none => .error (.keyError k)
  | _ => .error .typeError

/-- Python subscript `v[i]` for a natural index: list/str indexing
(`IndexError` out of range), `KeyError` for a dict, `TypeError` otherwise. -/
def pyGetItemIdx (v : JsonVal) (i : ℕ) : Except PyErr JsonVal :=
  match v with
  | .arr xs =>
    match xs.get? i with
    | some x => .ok x
    | none => .error .indexError
  | .str s =>
    match s.get? i with
    | some c => .ok (.str [c])
    | none => .error .indexError
  | .obj _ => .error (.keyErrorInt i)
  | _ => .error .typeError

/-- Python iteration over a value: lists yield elements, strings yield
their characters, dicts yield their keys; other types are not iterable. -/
def pyIterate : JsonVal → Except PyErr (List JsonVal)
  | .arr xs => .ok xs
  | .str s => .ok (s.map (fun c => .str [c]))
  | .obj fs => .ok (fs.map (fun p => .str p.1))
  | _ => .error .typeError

/-- Equality as used for Python dict keys, restricted to hashable
values: numbers and booleans compare by numeric value (`1 == 1.0 == True`
in Python), strings by content, `None` only to itself. -/
def pyKeyEq (a b : JsonVal) : Bool :=
  let numOf : JsonVal → Option PyRat := fun v => match v with
    | .intVal n => some ⟨n, 1⟩
    | .floatVal q => some q
    | .bool b => some ⟨if b then 1 else 0, 1⟩
    | _ => none
  match a, b with
  | .str s, .str t => s = t
  | .null, .null => true
  | .str _, _ => false
  | _, .str _ => false
  | .null, _ => false
  | _, .null => false
  | a, b =>
    match numOf a, numOf b with
    | some x, some y => x = y
    | _, _ => false

/-- Is the value usable as a Python dict key (hashable)? -/
def pyHashable : JsonVal → Bool
  | .arr _ => false
  | .obj _ => false
  | _ => true

/-- One `d[k] = v` assignment: a key already present keeps its position
(and original key object) and takes the new value; a new key is appended. -/
def pyDictAssign (d : List (JsonVal × JsonVal)) (k v : JsonVal) :
    List (JsonVal × JsonVal) :=
  if d.any (fun p => pyKeyEq p.1 k) then
    d.map (fun p => if pyKeyEq p.1 k then (p.1, v) else p)
  else d ++ [(k, v)]

/-- Build a Python dict from key/value pairs left to right (as
`dict(zip(...))` does); an unhashable key raises `TypeError`. -/
def pyDictOfPairsAux (acc : List (JsonVal × JsonVal)) :
    List (JsonVal × JsonVal) → Except PyErr (List (JsonVal × JsonVal))
  | [] => .ok acc
  | (k, v) :: rest =>
    if pyHashable k then pyDictOfPairsAux (pyDictAssign acc k v) rest
    else .error .typeError

/-- `dict(pairs)` for a list of key/value pairs. -/
def pyDictOfPairs (ps : List (JsonVal × JsonVal)) :
    Except PyErr (List (JsonVal × JsonVal)) :=
  pyDictOfPairsAux [] ps

/-- Split on `','` exactly as Python's `str.split(",")` does
(`""` yields `[""]`, adjacent separators yield empty fields). -/
def pySplitCommaAux (acc : PyStr) : PyStr → List PyStr
  | [] => [acc.reverse]
  | c :: cs =>
    if c = ',' then acc.reverse :: pySplitCommaAux [] cs
    else pySplitCommaAux (c :: acc) cs

/-- Python `s.split(",")`. -/
def pySplitComma (s : PyStr) : List PyStr := pySplitCommaAux [] s

/-- Python `" ".join(parts)`. -/
def pyJoinSpace : List PyStr → PyStr
  | [] => []
  | [x] => x
  | x :: rest => x ++ ' ' :: pyJoinSpace rest

/-- Decimal digits of `n` (most significant first), via fuel recursion. -/
def natToDecAux : ℕ → ℕ → List Char
  | 0, _ => []
  | fuel + 1, n =>
    if n = 0 then []
    else natToDecAux fuel (n / 10) ++ [Char.ofNat (48 + n % 10)]

/-- Python `str(n)` for an `int`. -/
def pyStrOfInt (n : ℤ) : PyStr :=
  if n < 0 then '-' :: (if n.natAbs = 0 then ['0'] else natToDecAux (n.natAbs + 1) n.natAbs)
  else if n.toNat = 0 then ['0'] else natToDecAux (n.toNat + 1) n.toNat

/-- `float(p)` lifted into `Except` (failure raises `ValueError`). -/
def pyFloatE (p : PyStr) : Except PyErr PyRat :=
  match pyFloat p with
  | some q => .ok q
  | none => .error (.valueErrorFloatConv p)

/-- Decode an inbound frame to text the way both `parse_ws_msg`
implementations do: text frames pass through, binary frames go through
`bytes.decode()` (raising `UnicodeDecodeError` on invalid UTF-8). -/
def frameDecode : Frame → Except PyErr PyStr
  | .text s => .ok s
  | .binary bs =>
    match pyBytesDecode bs with
    | some s => .ok s
    | none => .error .unicodeDecodeError

/-- `json.loads` lifted into `Except` (failure raises
`json.JSONDecodeError`). -/
def jsonLoadsE (s : PyStr) : Except PyErr JsonVal :=
  match jsonLoads s with
  | some v => .ok v
  | none => .error .jsonDecodeError

/-- Reading `self._uuids`: `AttributeError` when `build_subscribe_cmd`
has not set it yet. -/
def getUuidsAttr : Option (List PyStr) → Except PyErr (List PyStr)
  | some l => .ok l
  | none => .error (.attributeError ("_uuids").data)

/-- Python `v.get(k)` / `v.get(k, default)`: only dicts have `.get`
(anything else raises `AttributeError`); a missing key yields the
default. -/
def pyGetMethod (v : JsonVal) (k : PyStr) (dflt : JsonVal) :
    Except PyErr JsonVal :=
  match v with
  | .obj fs => .ok ((pyDictGet fs k).getD dflt)
  | _ => .error (.attributeError ("get").data)

/-- Python `len(v)`. -/
def pyLen : JsonVal → Except PyErr ℕ
  | .arr xs => .ok xs.length
  | .str s => .ok s.length
  | .obj fs => .ok fs.length
  | _ => .error .typeError

/-- Formatting one colour channel with `f"...{v:02x}..."`: `int` (and
`bool`, a Python `int` subclass) format in lowercase hex; floats and
other types are rejected by the `x` format code. -/
def pyFormatValHex (w : ℕ) : JsonVal → Except PyErr PyStr
  | .intVal n => .ok (pyFormatHex w n)
  | .bool b => .ok (pyFormatHex w (if b then 1 else 0))
  | _ => .error .formatError

/-- A discovered device (`@dataclass Device`); the dataclass does not
enforce field types, so both fields hold arbitrary Python values. -/
structure Device : Type where
  uuid : JsonVal
  color : JsonVal

/-- `DataSourceStrategy._to_hex`: an `{r,g,b}` dict becomes
`f"#{r:02x}{g:02x}{b:02x}"`; every other value is returned unchanged. -/
def DataSourceStrategy.to_hex (v : JsonVal) : Except PyErr JsonVal :=
  match v with
  | .obj fs => do
    let rv ← match pyDictGet fs ['r'] with
      | some x => .ok x
      | none => .error (.keyError ['r'])
    let fr ← pyFormatValHex 2 rv
    let gv ← match pyDictGet fs ['g'] with
      | some x => .ok x
      | none => .error (.keyError ['g'])
    let fg ← pyFormatValHex 2 gv
    let bv ← match pyDictGet fs ['b'] with
      | some x => .ok x
      | none => .error (.keyError ['b'])
    let fb ← pyFormatValHex 2 bv
    return .str ('#' :: (fr ++ fg ++ fb))
  | v => .ok v

/-- Outcome of the `requests.get(url, timeout=5)` call: either a
transport-level failure or an HTTP response with a status code and a
body. -/
inductive HttpResult : Type where
  | transportFailure : HttpResult
  | response (status : ℕ) (body : PyStr) : HttpResult
deriving DecidableEq

/-- `requests.get` as a function of the network's behaviour. -/
def requestsGet : HttpResult → Except PyErr (ℕ × PyStr)
  | .transportFailure => .error .requestsError
  | .response st body => .ok (st, body)

/-- `resp.raise_for_status()`: raises `requests.HTTPError` for 4xx/5xx
status codes. -/
def raiseForStatus (status : ℕ) : Except PyErr Unit :=
  if 400 ≤ status ∧ status < 600 then .error (.httpError status) else .ok ()

/-- `resp.json()`: parse the response body, raising on invalid JSON. -/
def respJson (body : PyStr) : Except PyErr JsonVal := jsonLoadsE body

/-- `DevDataServerStrategy.fetch_devices`, as a function of the
response the network produces for `GET /v1/get_devices`. -/
def DevDataServerStrategy.fetch_devices (net : HttpResult) :
    Except PyErr (List Device) := do
  let (status, body) ← requestsGet net
  let _ ← raiseForStatus status
  let bodyJson ← respJson body
  let dss ← pyGetItemStr bodyJson ("datastreams").data
  let dsList ← pyIterate dss
  dsList.mapM (fun ds => do
    let uid ← pyGetItemStr ds ("UUID").data
    let col ← pyGetItemStr ds ("color").data
    let colHex ← DataSourceStrategy.to_hex col
    return Device.mk uid colHex)

/-- `OmnAIScopeStrategy.fetch_devices`, as a function of the response
for `GET /UUID` and of the stream `rand` of `random.randint(0, 0xFFFFFF)`
draws (one per device lacking a colour entry, indexed by device
position). -/
def OmnAIScopeStrategy.fetch_devices (rand : ℕ → ℕ) (net : HttpResult) :
    Except PyErr (List Device) := do
  let (status, body) ← requestsGet net
  let _ ← raiseForStatus status
  let bodyJson ← respJson body
  let dsRaw ← pyGetMethod bodyJson ("devices").data .null
  let dsListVal := if pyTruthy dsRaw then dsRaw else .arr []
  let colRaw ← pyGetMethod bodyJson ("colors").data .null
  let colorList := if pyTruthy colRaw then colRaw else .arr []
  let dsItems ← pyIterate dsListVal
  dsItems.enum.mapM (fun p => do
    let idx := p.1
    let ds := p.2
    let uuidRaw ← pyGetMethod ds ("UUID").data .null
    let uid ← if pyTruthy uuidRaw then pure uuidRaw
      else pyGetMethod ds ("uuid").data .null
    let colorLen ← pyLen colorList
    let colorHex ←
      if idx < colorLen then do
        let entry ← pyGetItemIdx colorList idx
        let col ← pyGetMethod entry ("color").data (.obj [])
        let rv ← pyGetMethod col ['r'] (.intVal 0)
        let fr ← pyFormatValHex 2 rv
        let gv ← pyGetMethod col ['g'] (.intVal 0)
        let fg ← pyFormatValHex 2 gv
        let bv ← pyGetMethod col ['b'] (.intVal 0)
        let fb ← pyFormatValHex 2 bv
        pure (JsonVal.str ('#' :: (fr ++ fg ++ fb)))
      else
        pure (JsonVal.str ('#' :: pyFormatHex 6 (rand idx)))
    return Device.mk uid colorHex)

/-- `DevDataServerStrategy.build_ws_uri`. -/
def DevDataServerStrategy.build_ws_uri (hostPort : PyStr) : PyStr :=
  ("ws://").data ++ hostPort ++ ("/v1/subscribe_ws").data

/-- `OmnAIScopeStrategy.build_ws_uri`. -/
def OmnAIScopeStrategy.build_ws_uri (hostPort : PyStr) : PyStr :=
  ("ws://").data ++ hostPort ++ ("/ws").data

/-- `DevDataServerStrategy.build_subscribe_cmd`: returns the payload
`" ".join(uuids + [str(rate), fmt])` and records the uuid order in
`self._uuids` (the second component is the updated attribute). -/
def DevDataServerStrategy.build_subscribe_cmd (uuids : List PyStr)
    (rate : ℤ) (fmt : PyStr) : PyStr × Option (List PyStr) :=
  (pyJoinSpace (uuids ++ [pyStrOfInt rate, fmt]), some uuids)

/-- `OmnAIScopeStrategy.build_subscribe_cmd` (line-for-line the same as
the DevDataServer one). -/
def OmnAIScopeStrategy.build_subscribe_cmd (uuids : List PyStr)
    (rate : ℤ) (fmt : PyStr) : PyStr × Option (List PyStr) :=
  (pyJoinSpace (uuids ++ [pyStrOfInt rate, fmt]), some uuids)

/-- `DevDataServerStrategy.parse_ws_msg`: `uuids` is the current value
of `self._uuids`.  Mirrors the source line by line, including the use of
the unbound local `ts_UNIX` on the CSV path. -/
def DevDataServerStrategy.parse_ws_msg (uuids : Option (List PyStr))
    (raw : Frame) : Except PyErr (ℤ × List (JsonVal × JsonVal)) := do
  let s ← frameDecode raw
  if s.head? = some '{' then
    let obj ← jsonLoadsE s
    let tsUNIX ← pyGetItemStr obj ("timestamp").data
    let data ← pyGetItemStr obj ("data").data
    let values ← pyGetItemIdx data 0
    let ts : ℤ ←
      match tsUNIX with
      | .intVal n => .ok (n * 1000)
      | .floatVal q => .ok ((q.mulInt 1000).trunc)
      | .bool b => .ok ((if b then (1 : ℤ) else 0) * 1000)
      | _ => .error .typeError
    let us ← getUuidsAttr uuids
    let vs ← pyIterate values
    let d ← pyDictOfPairs (List.zip (us.map JsonVal.str) vs)
    return (ts, d)
  else
    let parts := pySplitComma s
    let p0 ← match parts.head? with
      | some p => .ok p
      | none => .error .indexError
    let _tsCsv ← pyFloatE p0
    let _vals ← parts.tail.mapM pyFloatE
    .error (.nameError ("ts_UNIX").data)

/-- The CSV / reject tail of `OmnAIScopeStrategy.parse_ws_msg`
(operating on the already-decoded text). -/
def OmnAIScopeStrategy.csvTail (uuids : Option (List PyStr)) (s : PyStr) :
    Except PyErr (JsonVal × List (JsonVal × JsonVal)) :=
  if s.contains ',' then do
    let parts := pySplitComma s
    let p0 ← match parts.head? with
      | some p => .ok p
      | none => .error .indexError
    let ts ← pyFloatE p0
    let vals ← parts.tail.mapM pyFloatE
    let us ← getUuidsAttr uuids
    let d ← pyDictOfPairs
      (List.zip (us.map JsonVal.str) (vals.map JsonVal.floatVal))
    return (.floatVal ts, d)
  else .error .valueErrorUnsupportedFrame

/-- `OmnAIScopeStrategy.parse_ws_msg`: JSON is attempted only when the
first character (or byte) opens a JSON object/array; a parsed document
is used only when it has both a `"data"` and a `"devices"` key,
otherwise control falls through to the CSV branch; frames with neither
shape raise the `Unsupported or malformed frame` `ValueError`. -/
def OmnAIScopeStrategy.parse_ws_msg (uuids : Option (List PyStr))
    (raw : Frame) : Except PyErr (JsonVal × List (JsonVal × JsonVal)) :=
  let jsonHead : Bool := match raw with
    | .binary bs => bs.head? == some 123 || bs.head? == some 91
    | .text s => s.head? == some '{' || s.head? == some '['
  if jsonHead then do
    let s ← frameDecode raw
    let obj ← jsonLoadsE s
    let hasData ← pyInStr ("data").data obj
    let hasDevices ←
      if hasData then pyInStr ("devices").data obj else pure false
    if hasData && hasDevices then
      let data ← pyGetItemStr obj ("data").data
      let sample ← pyGetItemIdx data 0
      let ts ← pyGetItemStr sample ("timestamp").data
      let values ← pyGetItemStr sample ("value").data
      let dsOrder ← pyGetItemStr obj ("devices").data
      let ks ← pyIterate dsOrder
      let vs ← pyIterate values
      let d ← pyDictOfPairs (List.zip ks vs)
      return (ts, d)
    else OmnAIScopeStrategy.csvTail uuids s
  else do
    let s ← frameDecode raw
    OmnAIScopeStrategy.csvTail uuids s

/-- `OmnAIScopeStrategy.server_sends_initial_msg` returns `True`; the
DevDataServer strategy inherits the base-class default. -/
def DataSourceStrategy.serverSendsInitialMsgDefault : Bool := false

/-- The two registered strategies. -/
inductive StrategyTag : Type where
  | devDataServer : StrategyTag
  | omnAIScopeDataServer : StrategyTag
deriving DecidableEq

/-- The class attribute `name`. -/
def strategyClassName : StrategyTag → PyStr
  | .devDataServer => ("DevDataServer").data
  | .omnAIScopeDataServer => ("OmnAIScope DataServer").data

/-- The class attribute `formats`. -/
def strategyFormats : StrategyTag → List PyStr
  | .devDataServer => [("json").data, ("csv").data]
  | .omnAIScopeDataServer => [("json").data, ("csv").data, ("binary").data]

/-- `server_sends_initial_msg` per strategy (base default `False`,
overridden to `True` by OmnAIScope). -/
def server_sends_initial_msg : StrategyTag → Bool
  | .devDataServer => DataSourceStrategy.serverSendsInitialMsgDefault
  | .omnAIScopeDataServer => true

/-- One `@register` application: `_registry[cls.name] = cls`
(dict assignment: an existing name keeps its position, the last
registration wins). -/
def registerStrategy (reg : List (PyStr × StrategyTag)) (t : StrategyTag) :
    List (PyStr × StrategyTag) :=
  if reg.any (fun p => p.1 = strategyClassName t) then
    reg.map (fun p =>
      if p.1 = strategyClassName t then (p.1, t) else p)
  else reg ++ [(strategyClassName t, t)]

/-- `_registry` after module import: the two `@register` decorators run
in source order. -/
def strategyRegistry : List (PyStr × StrategyTag) :=
  registerStrategy (registerStrategy [] .devDataServer) .omnAIScopeDataServer

/-- `available_sources()`: registered names, in registration order. -/
def available_sources : List PyStr := strategyRegistry.map Prod.fst

/-- A live strategy instance: its class together with the `_uuids`
attribute (unset on a freshly constructed instance). -/
structure StrategyInstance : Type where
  tag : StrategyTag
  uuids : Option (List PyStr)
deriving DecidableEq

/-- `get_strategy(name)`: `_registry[name]()` — a registry miss raises
`KeyError`, a hit constructs a fresh instance. -/
def get_strategy (nm : PyStr) : Except PyErr StrategyInstance :=
  match (strategyRegistry.filter (fun p => p.1 = nm)).getLast? with
  | some p => .ok ⟨p.2, none⟩
  | none => .error (.keyError nm)

/-- Observable I/O events of the WebSocket worker. -/
inductive WsEvent : Type where
  | recv (f : Frame) : WsEvent
  | handleInitial (f : Frame) : WsEvent
  | send (payload : PyStr) : WsEvent
deriving DecidableEq

/-- The handshake part of `DevDataClient._ws_worker` (src/main.py lines
211–219) as an event trace: when the strategy's
`server_sends_initial_msg()` is true, one frame is received and passed
to `handle_initial_msg` before the subscribe command is sent; otherwise
the subscribe command is sent immediately. -/
def wsWorkerHandshake (t : StrategyTag) (firstFrame : Frame)
    (subscribeCmd : PyStr) : List WsEvent :=
  (if server_sends_initial_msg t then
    [WsEvent.recv firstFrame, WsEvent.handleInitial firstFrame]
  else []) ++ [WsEvent.send subscribeCmd]

/-- The events a trace performs strictly before its first send. -/
def eventsBeforeFirstSend (tr : List WsEvent) : List WsEvent :=
  tr.takeWhile (fun e => match e with
    | .send _ => false
    | _ => true)

/-- Is the event a receive? -/
def WsEvent.isRecv : WsEvent → Bool
  | .recv _ => true
  | _ => false

/-- Is the character a lowercase hexadecimal digit? -/
def isLowerHexDigit (c : Char) : Bool :=
  c.isDigit || ('a' ≤ c && c ≤ 'f')

/-- Spec-side predicate: the value is a string of the shape `"#"`
followed by exactly six lowercase hex digits. -/
def isNormalizedColor : JsonVal → Bool
  | .str ('#' :: ds) => ds.length = 6 && ds.all isLowerHexDigit
  | _ => false

/-- The decoder method never assigns to `self`, so the stateful view of
`OmnAIScopeStrategy.parse_ws_msg` returns the instance unchanged. -/
def OmnAIScopeStrategy.parse_ws_msg_stateful (inst : StrategyInstance)
    (raw : Frame) :
    (Except PyErr (JsonVal × List (JsonVal × JsonVal))) × StrategyInstance :=
  (OmnAIScopeStrategy.parse_ws_msg inst.uuids raw, inst)

/-- Stateful view of `DevDataServerStrategy.parse_ws_msg` (likewise no
assignment to `self`). -/
def DevDataServerStrategy.parse_ws_msg_stateful (inst : StrategyInstance)
    (raw : Frame) :
    (Except PyErr (ℤ × List (JsonVal × JsonVal))) × StrategyInstance :=
  (DevDataServerStrategy.parse_ws_msg inst.uuids raw, inst)

/-- Characterization: on a `{`/`[`-headed text frame that parses to an
object carrying a one-sample `"data"` array and a `"devices"` list, the
OmnAIScope decoder returns the sample's raw timestamp together with the
dict zipping the payload's own device list against the sample's values —
the subscription order `uuids` plays no role. -/
theorem omnaiParse_json_shape (uuids : Option (List PyStr)) (s : PyStr)
    (fs sfs : List (PyStr × JsonVal)) (rest : List JsonVal) (ts : JsonVal)
    (vs ks : List JsonVal)
    (hhead : s.head? = some '{' ∨ s.head? = some '[')
    (hload : jsonLoads s = some (.obj fs))
    (hdata : pyDictGet fs ("data").data = some (.arr (.obj sfs :: rest)))
    (hdevs : pyDictGet fs ("devices").data = some (.arr ks))
    (hts : pyDictGet sfs ("timestamp").data = some ts)
    (hval : pyDictGet sfs ("value").data = some (.arr vs)) :
    OmnAIScopeStrategy.parse_ws_msg uuids (.text s)
      = (pyDictOfPairs (List.zip ks vs)).map (fun d => (ts, d)) := by
  have hb : (s.head? == some '{' || s.head? == some '[') = true := by
    rcases hhead with h | h <;> simp [h]
  unfold OmnAIScopeStrategy.parse_ws_msg
  simp only [hb, if_true]
  simp only [frameDecode, jsonLoadsE, hload, pyInStr, pyGetItemStr,
    pyGetItemIdx, pyIterate, hdata, hdevs, hts, hval, Option.isSome_some,
    Except.bind, bind, pure, Except.pure, Except.map, List.get?,
    Bool.and_self, if_true]

/-- A text frame whose first character is not `{` or `[` goes straight
to the CSV / reject tail. -/
theorem omnaiParse_text_noJsonHead (uuids : Option (List PyStr)) (s : PyStr)
    (h1 : s.head? ≠ some '{') (h2 : s.head? ≠ some '[') :
    OmnAIScopeStrategy.parse_ws_msg uuids (.text s)
      = OmnAIScopeStrategy.csvTail uuids s := by
  have hb : (s.head? == some '{' || s.head? == some '[') = false := by
    simp [h1, h2]
  unfold OmnAIScopeStrategy.parse_ws_msg
  simp only [hb, Bool.false_eq_true, if_false]
  rfl

/-- A `{`/`[`-headed text frame that is not valid JSON fails with
`json.JSONDecodeError`; it is never handed to the CSV branch. -/
theorem omnaiParse_jsonDecodeFail (uuids : Option (List PyStr)) (s : PyStr)
    (hhead : s.head? = some '{' ∨ s.head? = some '[')
    (hload : jsonLoads s = none) :
    OmnAIScopeStrategy.parse_ws_msg uuids (.text s)
      = .error .jsonDecodeError := by
  have hb : (s.head? == some '{' || s.head? == some '[') = true := by
    rcases hhead with h | h <;> simp [h]
  unfold OmnAIScopeStrategy.parse_ws_msg
  simp [hb, frameDecode, jsonLoadsE, hload, Except.bind, bind]

/-- A `{`/`[`-headed text frame that parses as JSON but does not carry
both a `"data"` and a `"devices"` key falls through to the CSV / reject
tail (on the already-decoded text). -/
theorem omnaiParse_json_fallthrough (uuids : Option (List PyStr)) (s : PyStr)
    (v : JsonVal)
    (hhead : s.head? = some '{' ∨ s.head? = some '[')
    (hload : jsonLoads s = some v)
    (hmiss : pyInStr ("data").data v = .ok false ∨
      (pyInStr ("data").data v = .ok true ∧
        pyInStr ("devices").data v = .ok false)) :
    OmnAIScopeStrategy.parse_ws_msg uuids (.text s)
      = OmnAIScopeStrategy.csvTail uuids s := by
  have hb : (s.head? == some '{' || s.head? == some '[') = true := by
    rcases hhead with h | h <;> simp [h]
  unfold OmnAIScopeStrategy.parse_ws_msg
  rcases hmiss with h | ⟨h1, h2⟩
  · simp [hb, frameDecode, jsonLoadsE, hload, h, Except.bind, bind, pure,
      Except.pure]
  · simp [hb, frameDecode, jsonLoadsE, hload, h1, h2, Except.bind, bind,
      pure, Except.pure]

/-- The CSV / reject tail rejects a comma-free text with the
`Unsupported or malformed frame` `ValueError`. -/
theorem omnaiCsvTail_noComma (uuids : Option (List PyStr)) (s : PyStr)
    (h : s.contains ',' = false) :
    OmnAIScopeStrategy.csvTail uuids s = .error .valueErrorUnsupportedFrame := by
  unfold OmnAIScopeStrategy.csvTail
  rw [h]
  simp only [Bool.false_eq_true, if_false]

/-- The CSV tail on a comma-carrying text whose fields all parse as
floats: the raw first field becomes the (fractional-seconds) timestamp
and the remaining fields are zipped against the stored subscription
order. -/
theorem omnaiCsvTail_success (us : List PyStr) (s : PyStr) (p0 : PyStr)
    (ps : List PyStr) (q : PyRat) (vals : List PyRat)
    (hc : s.contains ',' = true)
    (hsplit : pySplitComma s = p0 :: ps)
    (hf : pyFloat p0 = some q)
    (hvals : ps.mapM pyFloatE = .ok vals) :
    OmnAIScopeStrategy.csvTail (some us) s
      = (pyDictOfPairs (List.zip (us.map JsonVal.str)
          (vals.map JsonVal.floatVal))).map (fun d => (.floatVal q, d)) := by
  simp only [List.mapM] at hvals
  unfold OmnAIScopeStrategy.csvTail
  simp only [hc, if_true, hsplit]
  simp [pyFloatE, hf, hvals, getUuidsAttr, Except.bind, bind, pure,
    Except.pure, Except.map]

/-- The CSV tail fails with the float-conversion `ValueError` when the
first comma-separated field is not a float literal. -/
theorem omnaiCsvTail_badFirstField (uuids : Option (List PyStr)) (s : PyStr)
    (p0 : PyStr) (ps : List PyStr)
    (hc : s.contains ',' = true)
    (hsplit : pySplitComma s = p0 :: ps)
    (hf : pyFloat p0 = none) :
    OmnAIScopeStrategy.csvTail uuids s
      = .error (.valueErrorFloatConv p0) := by
  unfold OmnAIScopeStrategy.csvTail
  simp only [hc, if_true, hsplit]
  simp [pyFloatE, hf, Except.bind, bind]

/-- Characterization of the DevDataServer JSON branch: a `{`-headed text
frame parsing to an object with a float `"timestamp"` and a `"data"`
array whose first entry is a value list decodes to the *truncated*
millisecond conversion `int(ts_UNIX * 1000)` and the values zipped
against the stored subscription order. -/
theorem devParse_json_shape (us : List PyStr) (s : PyStr)
    (fs : List (PyStr × JsonVal)) (q : PyRat) (vals rest : List JsonVal)
    (hhead : s.head? = some '{')
    (hload : jsonLoads s = some (.obj fs))
    (hts : pyDictGet fs ("timestamp").data = some (.floatVal q))
    (hdata : pyDictGet fs ("data").data = some (.arr (.arr vals :: rest))) :
    DevDataServerStrategy.parse_ws_msg (some us) (.text s)
      = (pyDictOfPairs (List.zip (us.map JsonVal.str) vals)).map
          (fun d => ((q.mulInt 1000).trunc, d)) := by
  unfold DevDataServerStrategy.parse_ws_msg
  simp only [frameDecode, Except.bind, bind, hhead, if_true]
  simp [jsonLoadsE, hload, pyGetItemStr, hts, hdata, pyGetItemIdx,
    pyIterate, getUuidsAttr, Except.bind, bind, pure, Except.pure,
    Except.map, List.get?]

/-- On any text frame not starting with `{`, the DevDataServer decoder
never succeeds: every path of its CSV branch raises. -/
theorem devParse_csv_fails (uuids : Option (List PyStr)) (s : PyStr)
    (h : ¬ s.head? = some '{') :
    ∃ e, DevDataServerStrategy.parse_ws_msg uuids (.text s) = .error e := by
  unfold DevDataServerStrategy.parse_ws_msg
  simp only [frameDecode, Except.bind, bind, if_neg h]
  cases hp : (pySplitComma s).head? with
  | none => exact ⟨.indexError, by simp [hp]⟩
  | some p0 =>
    cases hf : pyFloatE p0 with
    | error e => exact ⟨e, by simp [hp, hf]⟩
    | ok q =>
      cases hm : (pySplitComma s).tail.mapM pyFloatE with
      | error e => exact ⟨e, by simp [hp, hf, hm]⟩
      | ok vals => exact ⟨.nameError ("ts_UNIX").data, by simp [hp, hf, hm]⟩

/-- When all fields of a non-`{`-headed text frame do parse as floats,
the DevDataServer decoder reaches `ts = int(ts_UNIX * 1000)` and raises
`NameError`: `ts_UNIX` is only ever bound on the JSON branch. -/
theorem devParse_csv_nameError (uuids : Option (List PyStr)) (s : PyStr)
    (p0 : PyStr) (ps : List PyStr) (q : PyRat) (vals : List PyRat)
    (h : ¬ s.head? = some '{')
    (hsplit : pySplitComma s = p0 :: ps)
    (hf : pyFloat p0 = some q)
    (hvals : ps.mapM pyFloatE = .ok vals) :
    DevDataServerStrategy.parse_ws_msg uuids (.text s)
      = .error (.nameError ("ts_UNIX").data) := by
  simp only [List.mapM] at hvals
  unfold DevDataServerStrategy.parse_ws_msg
  simp only [frameDecode, Except.bind, bind, if_neg h, hsplit]
  simp [pyFloatE, hf, hvals, Except.bind, bind]

/-- An undecodable binary frame fails with `UnicodeDecodeError` in the
DevDataServer decoder. -/
theorem devParse_binary_undecodable (uuids : Option (List PyStr))
    (bs : List ℕ) (h : pyBytesDecode bs = none) :
    DevDataServerStrategy.parse_ws_msg uuids (.binary bs)
      = .error .unicodeDecodeError := by
  unfold DevDataServerStrategy.parse_ws_msg
  simp [frameDecode, h, Except.bind, bind]

/-- An undecodable binary frame fails with `UnicodeDecodeError` in the
OmnAIScope decoder (on either side of the JSON-head test, decoding
happens before anything else). -/
theorem omnaiParse_binary_undecodable (uuids : Option (List PyStr))
    (bs : List ℕ) (h : pyBytesDecode bs = none) :
    OmnAIScopeStrategy.parse_ws_msg uuids (.binary bs)
      = .error .unicodeDecodeError := by
  unfold OmnAIScopeStrategy.parse_ws_msg
  cases hb : (bs.head? == some 123 || bs.head? == some 91) <;>
    simp [frameDecode, h, Except.bind, bind]

/-- A binary frame whose first byte opens neither a JSON object nor an
array is decoded and handed to the CSV / reject tail. -/
theorem omnaiParse_binary_noJsonHead (uuids : Option (List PyStr))
    (bs : List ℕ) (s : PyStr)
    (h1 : bs.head? ≠ some 123) (h2 : bs.head? ≠ some 91)
    (hdec : pyBytesDecode bs = some s) :
    OmnAIScopeStrategy.parse_ws_msg uuids (.binary bs)
      = OmnAIScopeStrategy.csvTail uuids s := by
  have hb : (bs.head? == some 123 || bs.head? == some 91) = false := by
    simp [h1, h2]
  unfold OmnAIScopeStrategy.parse_ws_msg
  simp only [hb, Bool.false_eq_true, if_false]
  simp [frameDecode, hdec, Except.bind, bind]

/-- C10: for every uuid list, rate and format name — including the
`"binary"` format that the OmnAIScope backend declares but never treats
specially — `build_subscribe_cmd` of both backends returns the very same
space-joined text line `"<uuid1> ... <uuidN> <rate> <format>"` (and
records the uuid order); there is no separate binary payload path and no
error is raised for `"binary"`. -/
theorem c10_subscribe_payload_no_binary_path :
    (∀ (uuids : List PyStr) (rate : ℤ) (fmt : PyStr),
      OmnAIScopeStrategy.build_subscribe_cmd uuids rate fmt
        = DevDataServerStrategy.build_subscribe_cmd uuids rate fmt ∧
      OmnAIScopeStrategy.build_subscribe_cmd uuids rate fmt
        = (pyJoinSpace (uuids ++ [pyStrOfInt rate, fmt]), some uuids)) ∧
    ("binary").data ∈ strategyFormats .omnAIScopeDataServer ∧
    (OmnAIScopeStrategy.build_subscribe_cmd [("a").data] 60 ("binary").data).1
      = ("a 60 binary").data := by
  refine ⟨fun uuids rate fmt => ⟨rfl, rfl⟩, ?_, rfl⟩
  simp [strategyFormats]

/-- C9: `get_strategy` fails with `KeyError` (the spec's
`UnknownBackend`) exactly on the names absent from the registry — in
particular on `"Nonexistent"` — and returns a freshly constructed
instance (with `_uuids` unset) for every registered name. -/
theorem c9_get_strategy_unknown_backend :
    (∀ nm : PyStr, (∀ p ∈ strategyRegistry, p.1 ≠ nm) →
      get_strategy nm = .error (.keyError nm)) ∧
    get_strategy ("Nonexistent").data
      = .error (.keyError ("Nonexistent").data) ∧
    (∀ nm t, (nm, t) ∈ strategyRegistry → get_strategy nm = .ok ⟨t, none⟩) := by
  have hreg : strategyRegistry
      = [(("DevDataServer").data, .devDataServer),
         (("OmnAIScope DataServer").data, .omnAIScopeDataServer)] := by rfl
  refine ⟨?_, by rfl, ?_⟩
  · intro nm h
    have h1 := h _ (by rw [hreg]; exact List.mem_cons_self _ _)
    have h2 := h _ (by rw [hreg]; exact List.mem_cons_of_mem _ (List.mem_cons_self _ _))
    have d1 : decide ((("DevDataServer").data : PyStr) = nm) = false :=
      decide_eq_false (by simpa using h1)
    have d2 : decide ((("OmnAIScope DataServer").data : PyStr) = nm) = false :=
      decide_eq_false (by simpa using h2)
    unfold get_strategy
    rw [hreg]
    simp only [List.filter]
    simp [d1, d2]
  · intro nm t hmem
    rw [hreg] at hmem
    simp only [List.mem_cons, List.mem_singleton, Prod.mk.injEq,
      List.not_mem_nil, or_false] at hmem
    rcases hmem with ⟨rfl, rfl⟩ | ⟨rfl, rfl⟩
    · rfl
    · rfl

/-- Witness for C9 at the concrete name `"Nonexistent"`. -/
theorem c9_witness :
    get_strategy ("Nonexistent").data
      = .error (.keyError ("Nonexistent").data) :=
  c9_get_strategy_unknown_backend.1 ("Nonexistent").data (by decide)

/-- C8: in the worker's handshake, a backend whose
`server_sends_initial_msg()` is true receives exactly one frame and
passes exactly that frame to `handle_initial_msg` before the subscribe
payload is sent; a backend whose flag is false sends the payload with
zero prior receives.  OmnAIScope declares true, DevDataServer inherits
the base default false. -/
theorem c8_greeting_before_subscribe :
    (∀ (t : StrategyTag) (f : Frame) (cmd : PyStr),
      (server_sends_initial_msg t = true →
        eventsBeforeFirstSend (wsWorkerHandshake t f cmd)
          = [WsEvent.recv f, WsEvent.handleInitial f]) ∧
      (server_sends_initial_msg t = false →
        eventsBeforeFirstSend (wsWorkerHandshake t f cmd) = []) ∧
      wsWorkerHandshake t f cmd
        = eventsBeforeFirstSend (wsWorkerHandshake t f cmd)
            ++ [WsEvent.send cmd]) ∧
    server_sends_initial_msg .omnAIScopeDataServer = true ∧
    server_sends_initial_msg .devDataServer = false := by
  refine ⟨fun t f cmd => ?_, rfl, rfl⟩
  cases t <;>
    simp [wsWorkerHandshake, eventsBeforeFirstSend, server_sends_initial_msg,
      DataSourceStrategy.serverSendsInitialMsgDefault, List.takeWhile]

/-- Witness for C8: the OmnAIScope handshake on a concrete frame. -/
theorem c8_witness :
    eventsBeforeFirstSend
        (wsWorkerHandshake .omnAIScopeDataServer (.text ("hi").data)
          ("a 60 json").data)
      = [WsEvent.recv (.text ("hi").data),
         WsEvent.handleInitial (.text ("hi").data)] :=
  (c8_greeting_before_subscribe.1 .omnAIScopeDataServer (.text ("hi").data)
    ("a 60 json").data).1 rfl

/-- C2 (code bug): the subscribe payload for `["a","b"], 60, "csv"` is
the claimed line `"a b 60 csv"` and the uuid order is recorded, but the
round trip breaks at decode time: on the frame `"1700000000.0,1.5,2.5"`
the DevDataServer decoder raises `NameError` (its CSV branch reads the
local `ts_UNIX`, which is only bound on the JSON branch), and the
OmnAIScope decoder returns the raw fractional-seconds timestamp
`1700000000.0` rather than the claimed `1700000000000` milliseconds. -/
theorem c2_round_trip_broken_at_decode :
    DevDataServerStrategy.build_subscribe_cmd [['a'], ['b']] 60 ("csv").data
      = (("a b 60 csv").data, some [['a'], ['b']]) ∧
    OmnAIScopeStrategy.build_subscribe_cmd [['a'], ['b']] 60 ("csv").data
      = (("a b 60 csv").data, some [['a'], ['b']]) ∧
    DevDataServerStrategy.parse_ws_msg (some [['a'], ['b']])
        (.text ("1700000000.0,1.5,2.5").data)
      = .error (.nameError ("ts_UNIX").data) ∧
    OmnAIScopeStrategy.parse_ws_msg (some [['a'], ['b']])
        (.text ("1700000000.0,1.5,2.5").data)
      = .ok (.floatVal ⟨1700000000, 1⟩,
          [(.str ['a'], .floatVal ⟨3, 2⟩), (.str ['b'], .floatVal ⟨5, 2⟩)]) ∧
    PyRat.toRat ⟨1700000000, 1⟩ ≠ (1700000000000 : ℚ) := by
  refine ⟨rfl, rfl, rfl, rfl, ?_⟩
  norm_num [PyRat.toRat]

/-- C3: on every self-describing JSON frame — a `{`/`[`-headed document
carrying a one-sample `"data"` array and its own `"devices"` ordering
list — the OmnAIScope decoder zips the sample's values against the
payload's own device list; the subscription order `subOrder` does not
appear in the result. -/
theorem c3_payload_ordering_wins (subOrder : Option (List PyStr))
    (s : PyStr) (fs sfs : List (PyStr × JsonVal)) (rest : List JsonVal)
    (ts : JsonVal) (vs ks : List JsonVal)
    (hhead : s.head? = some '{' ∨ s.head? = some '[')
    (hload : jsonLoads s = some (.obj fs))
    (hdata : pyDictGet fs ("data").data = some (.arr (.obj sfs :: rest)))
    (hdevs : pyDictGet fs ("devices").data = some (.arr ks))
    (hts : pyDictGet sfs ("timestamp").data = some ts)
    (hval : pyDictGet sfs ("value").data = some (.arr vs)) :
    OmnAIScopeStrategy.parse_ws_msg subOrder (.text s)
      = (pyDictOfPairs (List.zip ks vs)).map (fun d => (ts, d)) :=
  omnaiParse_json_shape subOrder s fs sfs rest ts vs ks hhead hload hdata
    hdevs hts hval

/-- Witness for C3: the spec's concrete frame, decoded with subscription
order `["y","x"]`, still yields `{"x": 3.0, "y": 4.0}`. -/
theorem c3_witness :
    OmnAIScopeStrategy.parse_ws_msg (some [['y'], ['x']])
        (.text ("\x7b\"data\":[\x7b\"timestamp\":1700000000.0,\"value\":[3.0,4.0]\x7d],\"devices\":[\"x\",\"y\"]\x7d").data)
      = .ok (.floatVal ⟨1700000000, 1⟩,
          [(.str ['x'], .floatVal ⟨3, 1⟩), (.str ['y'], .floatVal ⟨4, 1⟩)]) := by
  have h := c3_payload_ordering_wins (some [['y'], ['x']])
    ("\x7b\"data\":[\x7b\"timestamp\":1700000000.0,\"value\":[3.0,4.0]\x7d],\"devices\":[\"x\",\"y\"]\x7d").data
    [(("data").data,
        .arr [.obj [(("timestamp").data, .floatVal ⟨1700000000, 1⟩),
          (("value").data, .arr [.floatVal ⟨3, 1⟩, .floatVal ⟨4, 1⟩])]]),
      (("devices").data, .arr [.str ['x'], .str ['y']])]
    [(("timestamp").data, .floatVal ⟨1700000000, 1⟩),
      (("value").data, .arr [.floatVal ⟨3, 1⟩, .floatVal ⟨4, 1⟩])]
    [] (.floatVal ⟨1700000000, 1⟩)
    [.floatVal ⟨3, 1⟩, .floatVal ⟨4, 1⟩] [.str ['x'], .str ['y']]
    (Or.inl rfl) rfl rfl rfl rfl rfl
  exact h.trans rfl

/-- C1 counterexample: decoding the delimited-text frame
`"1700000000.5,1.5"` with the OmnAIScope backend returns the raw
fractional-seconds timestamp `1700000000.5`, not the
`round(seconds * 1000) = 1700000000500` integer milliseconds the claim
requires (all values here are exactly representable doubles). -/
theorem c1_counterexample :
    OmnAIScopeStrategy.parse_ws_msg (some [['a']])
        (.text ("1700000000.5,1.5").data)
      = .ok (.floatVal ⟨3400000001, 2⟩, [(.str ['a'], .floatVal ⟨3, 2⟩)]) ∧
    PyRat.pyRound ((PyRat.mk 3400000001 2).mulInt 1000) = 1700000000500 ∧
    JsonVal.floatVal ⟨3400000001, 2⟩ ≠ JsonVal.intVal 1700000000500 ∧
    PyRat.toRat ⟨3400000001, 2⟩ ≠ (1700000000500 : ℚ) := by
  refine ⟨rfl, rfl, fun h => JsonVal.noConfusion h, ?_⟩
  norm_num [PyRat.toRat]

/-- C1 amended: only the DevDataServer JSON shape converts the
timestamp, and by truncation `int(ts_UNIX * 1000)`; the OmnAIScope
decoder returns the frame's raw fractional-seconds timestamp unchanged
on both its JSON and its delimited-text shape; and the DevDataServer
delimited-text shape never returns a timestamp at all — once its fields
parse as floats it raises `NameError` on the unbound `ts_UNIX`. -/
theorem c1_timestamp_handling_amended :
    (∀ (us : List PyStr) (s : PyStr) (fs : List (PyStr × JsonVal))
        (q : PyRat) (vals rest : List JsonVal),
      s.head? = some '{' → jsonLoads s = some (.obj fs) →
      pyDictGet fs ("timestamp").data = some (.floatVal q) →
      pyDictGet fs ("data").data = some (.arr (.arr vals :: rest)) →
      DevDataServerStrategy.parse_ws_msg (some us) (.text s)
        = (pyDictOfPairs (List.zip (us.map JsonVal.str) vals)).map
            (fun d => ((q.mulInt 1000).trunc, d))) ∧
    (∀ (uuids : Option (List PyStr)) (s : PyStr)
        (fs sfs : List (PyStr × JsonVal)) (rest : List JsonVal)
        (ts : JsonVal) (vs ks : List JsonVal),
      (s.head? = some '{' ∨ s.head? = some '[') →
      jsonLoads s = some (.obj fs) →
      pyDictGet fs ("data").data = some (.arr (.obj sfs :: rest)) →
      pyDictGet fs ("devices").data = some (.arr ks) →
      pyDictGet sfs ("timestamp").data = some ts →
      pyDictGet sfs ("value").data = some (.arr vs) →
      OmnAIScopeStrategy.parse_ws_msg uuids (.text s)
        = (pyDictOfPairs (List.zip ks vs)).map (fun d => (ts, d))) ∧
    (∀ (us : List PyStr) (s p0 : PyStr) (ps : List PyStr) (q : PyRat)
        (vals : List PyRat),
      s.head? ≠ some '{' → s.head? ≠ some '[' → s.contains ',' = true →
      pySplitComma s = p0 :: ps → pyFloat p0 = some q →
      ps.mapM pyFloatE = .ok vals →
      OmnAIScopeStrategy.parse_ws_msg (some us) (.text s)
        = (pyDictOfPairs (List.zip (us.map JsonVal.str)
            (vals.map JsonVal.floatVal))).map (fun d => (.floatVal q, d))) ∧
    (∀ (uuids : Option (List PyStr)) (s p0 : PyStr) (ps : List PyStr)
        (q : PyRat) (vals : List PyRat),
      s.head? ≠ some '{' → pySplitComma s = p0 :: ps → pyFloat p0 = some q →
      ps.mapM pyFloatE = .ok vals →
      DevDataServerStrategy.parse_ws_msg uuids (.text s)
        = .error (.nameError ("ts_UNIX").data)) := by
  refine ⟨?_, ?_, ?_, ?_⟩
  · intro us s fs q vals rest hhead hload hts hdata
    exact devParse_json_shape us s fs q vals rest hhead hload hts hdata
  · intro uuids s fs sfs rest ts vs ks hhead hload hdata hdevs hts hval
    exact omnaiParse_json_shape uuids s fs sfs rest ts vs ks hhead hload
      hdata hdevs hts hval
  · intro us s p0 ps q vals h1 h2 hc hsplit hf hvals
    rw [omnaiParse_text_noJsonHead (some us) s h1 h2]
    exact omnaiCsvTail_success us s p0 ps q vals hc hsplit hf hvals
  · intro uuids s p0 ps q vals h hsplit hf hvals
    exact devParse_csv_nameError uuids s p0 ps q vals h hsplit hf hvals

/-- Witness for C1 (amended): the DevDataServer JSON branch applied to
the frame carrying timestamp `1700000000.123` yields `1700000000123`
(the one shape on which the original claim's example holds). -/
theorem c1_witness :
    DevDataServerStrategy.parse_ws_msg (some [['a'], ['b']])
        (.text ("\x7b\"timestamp\":1700000000.123,\"data\":[[1.5,2.5]]\x7d").data)
      = .ok (1700000000123,
          [(.str ['a'], .floatVal ⟨3, 2⟩), (.str ['b'], .floatVal ⟨5, 2⟩)]) := by
  have h := c1_timestamp_handling_amended.1 [['a'], ['b']]
    ("\x7b\"timestamp\":1700000000.123,\"data\":[[1.5,2.5]]\x7d").data
    [(("timestamp").data, .floatVal ⟨1700000000123, 1000⟩),
      (("data").data, .arr [.arr [.floatVal ⟨3, 2⟩, .floatVal ⟨5, 2⟩]])]
    ⟨1700000000123, 1000⟩ [.floatVal ⟨3, 2⟩, .floatVal ⟨5, 2⟩] []
    rfl rfl rfl rfl
  exact h.trans rfl

/-- C4 counterexample: the frame `{"a": 1, "b": 2}` opens a JSON object
and is valid JSON, yet — because it lacks the `"data"`/`"devices"` keys —
it *is* handed to the delimited-text matcher, which fails trying
`float('{"a": 1')`.  The claim's "parsed as JSON and not handed to the
delimited-text matcher" is false for such frames. -/
theorem c4_counterexample :
    jsonLoads ("\x7b\"a\": 1, \"b\": 2\x7d").data
      = some (.obj [(['a'], .intVal 1), (['b'], .intVal 2)]) ∧
    OmnAIScopeStrategy.parse_ws_msg (some [['u']])
        (.text ("\x7b\"a\": 1, \"b\": 2\x7d").data)
      = .error (.valueErrorFloatConv ("\x7b\"a\": 1").data) := ⟨rfl, rfl⟩

/-- C4 amended: the OmnAIScope dispatch order is: (i) a `{`/`[`-headed
frame is parsed as JSON, and a JSON parse failure is final (never handed
on); (ii) a parsed document is consumed as JSON only when it carries
both `"data"` and `"devices"` keys; (iii) otherwise the frame falls
through to the delimited-text matcher; (iv) a frame with no JSON head is
handed directly to the delimited-text matcher, which (v) rejects it with
the `Unsupported` `ValueError` when it has no comma and (vi) otherwise
reads the first field as a fractional-seconds float timestamp. -/
theorem c4_dispatch_order_amended :
    (∀ (uuids : Option (List PyStr)) (s : PyStr),
      (s.head? = some '{' ∨ s.head? = some '[') → jsonLoads s = none →
      OmnAIScopeStrategy.parse_ws_msg uuids (.text s)
        = .error .jsonDecodeError) ∧
    (∀ (uuids : Option (List PyStr)) (s : PyStr)
        (fs sfs : List (PyStr × JsonVal)) (rest : List JsonVal)
        (ts : JsonVal) (vs ks : List JsonVal),
      (s.head? = some '{' ∨ s.head? = some '[') →
      jsonLoads s = some (.obj fs) →
      pyDictGet fs ("data").data = some (.arr (.obj sfs :: rest)) →
      pyDictGet fs ("devices").data = some (.arr ks) →
      pyDictGet sfs ("timestamp").data = some ts →
      pyDictGet sfs ("value").data = some (.arr vs) →
      OmnAIScopeStrategy.parse_ws_msg uuids (.text s)
        = (pyDictOfPairs (List.zip ks vs)).map (fun d => (ts, d))) ∧
    (∀ (uuids : Option (List PyStr)) (s : PyStr) (v : JsonVal),
      (s.head? = some '{' ∨ s.head? = some '[') → jsonLoads s = some v →
      (pyInStr ("data").data v = .ok false ∨
        (pyInStr ("data").data v = .ok true ∧
          pyInStr ("devices").data v = .ok false)) →
      OmnAIScopeStrategy.parse_ws_msg uuids (.text s)
        = OmnAIScopeStrategy.csvTail uuids s) ∧
    (∀ (uuids : Option (List PyStr)) (s : PyStr),
      s.head? ≠ some '{' → s.head? ≠ some '[' →
      OmnAIScopeStrategy.parse_ws_msg uuids (.text s)
        = OmnAIScopeStrategy.csvTail uuids s) ∧
    (∀ (uuids : Option (List PyStr)) (s : PyStr),
      s.contains ',' = false →
      OmnAIScopeStrategy.csvTail uuids s
        = .error .valueErrorUnsupportedFrame) ∧
    (∀ (us : List PyStr) (s p0 : PyStr) (ps : List PyStr) (q : PyRat)
        (vals : List PyRat),
      s.contains ',' = true → pySplitComma s = p0 :: ps →
      pyFloat p0 = some q → ps.mapM pyFloatE = .ok vals →
      OmnAIScopeStrategy.csvTail (some us) s
        = (pyDictOfPairs (List.zip (us.map JsonVal.str)
            (vals.map JsonVal.floatVal))).map (fun d => (.floatVal q, d))) := by
  refine ⟨?_, ?_, ?_, ?_, ?_, ?_⟩
  · exact fun uuids s hh hl => omnaiParse_jsonDecodeFail uuids s hh hl
  · exact fun uuids s fs sfs rest ts vs ks hh hl hd hv ht hval =>
      omnaiParse_json_shape uuids s fs sfs rest ts vs ks hh hl hd hv ht hval
  · exact fun uuids s v hh hl hm => omnaiParse_json_fallthrough uuids s v hh hl hm
  · exact fun uuids s h1 h2 => omnaiParse_text_noJsonHead uuids s h1 h2
  · exact fun uuids s h => omnaiCsvTail_noComma uuids s h
  · exact fun us s p0 ps q vals hc hs hf hv =>
      omnaiCsvTail_success us s p0 ps q vals hc hs hf hv

/-- Witness for C4 (amended), part (i) at a concrete malformed frame:
`"{oops"` opens a JSON object, fails to parse, and the failure is the
JSON decoder's — the frame is not handed to the text matcher. -/
theorem c4_witness :
    OmnAIScopeStrategy.parse_ws_msg none (.text ("\x7boops").data)
      = .error .jsonDecodeError :=
  c4_dispatch_order_amended.1 none ("\x7boops").data (Or.inl rfl) rfl

/-- C7 counterexample: the text frame `"42"` has an unrecognized shape
(no JSON head, no field separator), yet the DevDataServer decoder does
not fail with the `Unsupported`-frame `ValueError`: it attempts
delimited-text decoding and dies with `NameError` — which is not even in
Python's `ValueError` class. -/
theorem c7_counterexample :
    (("42").data.head? = some '{') = False ∧
    (("42").data.head? = some '[') = False ∧
    ("42").data.contains ',' = false ∧
    DevDataServerStrategy.parse_ws_msg (some [['a']]) (.text ("42").data)
      = .error (.nameError ("ts_UNIX").data) ∧
    PyErr.isValueErrorClass (.nameError ("ts_UNIX").data) = false := by
  refine ⟨by simp, by simp, rfl, rfl, rfl⟩

/-- C7 amended: the OmnAIScope decoder does reject every
unrecognized-shape frame with a `ValueError` — the explicit
`Unsupported`-frame error, or `UnicodeDecodeError` for undecodable
binary — and decoding never mutates the instance, so a subsequent frame
decodes exactly as if the rejected frame had never arrived.  The
DevDataServer decoder has no unrecognized-frame guard: such frames enter
its delimited-text branch and fail there (with a float-conversion
`ValueError`, or with a `NameError` once the whole frame parses as one
float), never with the `Unsupported`-frame error; its state is likewise
untouched. -/
theorem c7_unrecognized_frames_amended :
    (∀ (uuids : Option (List PyStr)) (s : PyStr),
      s.head? ≠ some '{' → s.head? ≠ some '[' → s.contains ',' = false →
      OmnAIScopeStrategy.parse_ws_msg uuids (.text s)
        = .error .valueErrorUnsupportedFrame) ∧
    (∀ (uuids : Option (List PyStr)) (bs : List ℕ),
      pyBytesDecode bs = none →
      OmnAIScopeStrategy.parse_ws_msg uuids (.binary bs)
        = .error .unicodeDecodeError) ∧
    (∀ (uuids : Option (List PyStr)) (bs : List ℕ) (s : PyStr),
      bs.head? ≠ some 123 → bs.head? ≠ some 91 →
      pyBytesDecode bs = some s → s.contains ',' = false →
      OmnAIScopeStrategy.parse_ws_msg uuids (.binary bs)
        = .error .valueErrorUnsupportedFrame) ∧
    (PyErr.isValueErrorClass .valueErrorUnsupportedFrame = true ∧
      PyErr.isValueErrorClass .unicodeDecodeError = true) ∧
    (∀ (inst : StrategyInstance) (raw : Frame),
      (OmnAIScopeStrategy.parse_ws_msg_stateful inst raw).2 = inst ∧
      (DevDataServerStrategy.parse_ws_msg_stateful inst raw).2 = inst ∧
      ∀ raw2 : Frame,
        OmnAIScopeStrategy.parse_ws_msg_stateful
            ((OmnAIScopeStrategy.parse_ws_msg_stateful inst raw).2) raw2
          = OmnAIScopeStrategy.parse_ws_msg_stateful inst raw2) ∧
    (∀ (uuids : Option (List PyStr)) (s : PyStr),
      s.head? ≠ some '{' →
      ∃ e, DevDataServerStrategy.parse_ws_msg uuids (.text s) = .error e) ∧
    (∀ (uuids : Option (List PyStr)) (s p0 : PyStr) (ps : List PyStr)
        (q : PyRat) (vals : List PyRat),
      s.head? ≠ some '{' → pySplitComma s = p0 :: ps →
      pyFloat p0 = some q → ps.mapM pyFloatE = .ok vals →
      DevDataServerStrategy.parse_ws_msg uuids (.text s)
        = .error (.nameError ("ts_UNIX").data)) := by
  refine ⟨?_, ?_, ?_, ⟨rfl, rfl⟩, ?_, ?_, ?_⟩
  · intro uuids s h1 h2 hc
    rw [omnaiParse_text_noJsonHead uuids s h1 h2]
    exact omnaiCsvTail_noComma uuids s hc
  · exact fun uuids bs h => omnaiParse_binary_undecodable uuids bs h
  · intro uuids bs s h1 h2 hdec hc
    rw [omnaiParse_binary_noJsonHead uuids bs s h1 h2 hdec]
    exact omnaiCsvTail_noComma uuids s hc
  · exact fun inst raw => ⟨rfl, rfl, fun raw2 => rfl⟩
  · exact fun uuids s h => devParse_csv_fails uuids s h
  · exact fun uuids s p0 ps q vals h hs hf hv =>
      devParse_csv_nameError uuids s p0 ps q vals h hs hf hv

/-- Witness for C7 (amended): the OmnAIScope decoder rejects the binary
frame `b"\x00\x01\x02"` with the `Unsupported`-frame `ValueError`. -/
theorem c7_witness :
    OmnAIScopeStrategy.parse_ws_msg none (.binary [0, 1, 2])
      = .error .valueErrorUnsupportedFrame :=
  c7_unrecognized_frames_amended.2.2.1 none [0, 1, 2]
    (Char.ofNat 0 :: Char.ofNat 1 :: [Char.ofNat 2])
    (by decide) (by decide) rfl rfl

/-- Each channel value in `0..255` formats under `:02x` as exactly two
lowercase hex digits (checked exhaustively). -/
theorem pyFormatHex2_bounded : ∀ n : ℕ, n < 256 →
    (pyFormatHex 2 (n : ℤ)).length = 2 ∧
    (pyFormatHex 2 (n : ℤ)).all isLowerHexDigit = true := by decide

/-- C5 counterexample: a backend that supplies the colour as the hex
*string* `"#00FF10"` gets it passed through verbatim by
`DevDataServerStrategy.fetch_devices` — uppercase and unnormalized — so
the claimed "always `'#'` + 6 lowercase hex digits regardless of source
form" fails for hex-string sources. -/
theorem c5_counterexample :
    DevDataServerStrategy.fetch_devices (.response 200
        ("\x7b\"datastreams\":[\x7b\"UUID\":\"d1\",\"color\":\"#00FF10\"\x7d]\x7d").data)
      = .ok [⟨.str ("d1").data, .str ("#00FF10").data⟩] ∧
    isNormalizedColor (.str ("#00FF10").data) = false := ⟨rfl, rfl⟩

/-- C5 amended: an `{r,g,b}` integer triple with each channel in
`0..255` is normalized to `"#"` followed by exactly six lowercase
zero-padded hex digits — `{r:0, g:255, b:16}` gives `"#00ff10"`, and the
OmnAIScope resolver produces the same normalized string from a parallel
colour list — but a colour supplied as a *string* is passed through
entirely unchanged, normalized or not. -/
theorem c5_color_normalization_amended :
    (∀ r g b : ℤ, 0 ≤ r → r ≤ 255 → 0 ≤ g → g ≤ 255 → 0 ≤ b → b ≤ 255 →
      DataSourceStrategy.to_hex
          (.obj [(['r'], .intVal r), (['g'], .intVal g), (['b'], .intVal b)])
        = .ok (.str ('#' ::
            (pyFormatHex 2 r ++ pyFormatHex 2 g ++ pyFormatHex 2 b))) ∧
      isNormalizedColor (.str ('#' ::
          (pyFormatHex 2 r ++ pyFormatHex 2 g ++ pyFormatHex 2 b))) = true) ∧
    DataSourceStrategy.to_hex
        (.obj [(['r'], .intVal 0), (['g'], .intVal 255), (['b'], .intVal 16)])
      = .ok (.str ("#00ff10").data) ∧
    (∀ s : PyStr, DataSourceStrategy.to_hex (.str s) = .ok (.str s)) ∧
    OmnAIScopeStrategy.fetch_devices (fun _ => 0) (.response 200
        ("\x7b\"devices\":[\x7b\"UUID\":\"u\"\x7d],\"colors\":[\x7b\"color\":\x7b\"r\":0,\"g\":255,\"b\":16\x7d\x7d]\x7d").data)
      = .ok [⟨.str ("u").data, .str ("#00ff10").data⟩] := by
  refine ⟨?_, rfl, fun s => rfl, rfl⟩
  intro r g b hr0 hr1 hg0 hg1 hb0 hb1
  have er : r = ((r.toNat : ℕ) : ℤ) := (Int.toNat_of_nonneg hr0).symm
  have eg : g = ((g.toNat : ℕ) : ℤ) := (Int.toNat_of_nonneg hg0).symm
  have eb : b = ((b.toNat : ℕ) : ℤ) := (Int.toNat_of_nonneg hb0).symm
  have br : r.toNat < 256 := by omega
  have bg : g.toNat < 256 := by omega
  have bb : b.toNat < 256 := by omega
  have hfr := pyFormatHex2_bounded r.toNat br
  have hfg := pyFormatHex2_bounded g.toNat bg
  have hfb := pyFormatHex2_bounded b.toNat bb
  rw [er, eg, eb]
  constructor
  · simp [DataSourceStrategy.to_hex, pyDictGet, pyFormatValHex, List.filter,
      Except.bind, bind, pure, Except.pure]
  · simp only [isNormalizedColor, List.all_append, List.length_append]
    rw [hfr.1, hfg.1, hfb.1, hfr.2, hfg.2, hfb.2]
    rfl

/-- Witness for C5 (amended): the triple `{r:0, g:255, b:16}`. -/
theorem c5_witness :
    DataSourceStrategy.to_hex
        (.obj [(['r'], .intVal 0), (['g'], .intVal 255), (['b'], .intVal 16)])
      = .ok (.str ('#' ::
          (pyFormatHex 2 0 ++ pyFormatHex 2 255 ++ pyFormatHex 2 16))) ∧
    isNormalizedColor (.str ('#' ::
        (pyFormatHex 2 0 ++ pyFormatHex 2 255 ++ pyFormatHex 2 16))) = true :=
  c5_color_normalization_amended.1 0 255 16 (by decide) (by decide)
    (by decide) (by decide) (by decide) (by decide)

/-- C6: for both backends, a transport failure, a 4xx/5xx status, or an
unparseable body makes `fetch_devices` fail with the corresponding
exception (carrying its cause: the status code, the decode failure, the
transport error), and a device list is returned only when the transport
succeeded, the status was non-error and the body parsed — never as a
partial result of such a failure. -/
theorem c6_device_fetch_error_containment :
    (DevDataServerStrategy.fetch_devices .transportFailure
        = .error .requestsError ∧
      ∀ rand, OmnAIScopeStrategy.fetch_devices rand .transportFailure
        = .error .requestsError) ∧
    (∀ (st : ℕ) (body : PyStr), 400 ≤ st → st < 600 →
      DevDataServerStrategy.fetch_devices (.response st body)
          = .error (.httpError st) ∧
      ∀ rand, OmnAIScopeStrategy.fetch_devices rand (.response st body)
          = .error (.httpError st)) ∧
    (∀ (st : ℕ) (body : PyStr), ¬(400 ≤ st ∧ st < 600) →
      jsonLoads body = none →
      DevDataServerStrategy.fetch_devices (.response st body)
          = .error .jsonDecodeError ∧
      ∀ rand, OmnAIScopeStrategy.fetch_devices rand (.response st body)
          = .error .jsonDecodeError) ∧
    (∀ (net : HttpResult) (devs : List Device),
      DevDataServerStrategy.fetch_devices net = .ok devs →
      ∃ st body v, net = .response st body ∧ ¬(400 ≤ st ∧ st < 600) ∧
        jsonLoads body = some v) ∧
    (∀ (rand : ℕ → ℕ) (net : HttpResult) (devs : List Device),
      OmnAIScopeStrategy.fetch_devices rand net = .ok devs →
      ∃ st body v, net = .response st body ∧ ¬(400 ≤ st ∧ st < 600) ∧
        jsonLoads body = some v) := by
  refine ⟨⟨rfl, fun rand => rfl⟩, ?_, ?_, ?_, ?_⟩
  · intro st body h1 h2
    have hc : 400 ≤ st ∧ st < 600 := ⟨h1, h2⟩
    constructor
    · unfold DevDataServerStrategy.fetch_devices
      simp [requestsGet, raiseForStatus, hc, Except.bind, bind]
    · intro rand
      unfold OmnAIScopeStrategy.fetch_devices
      simp [requestsGet, raiseForStatus, hc, Except.bind, bind]
  · intro st body hc hjl
    constructor
    · unfold DevDataServerStrategy.fetch_devices
      simp [requestsGet, raiseForStatus, hc, respJson, jsonLoadsE, hjl,
        Except.bind, bind]
    · intro rand
      unfold OmnAIScopeStrategy.fetch_devices
      simp [requestsGet, raiseForStatus, hc, respJson, jsonLoadsE, hjl,
        Except.bind, bind]
  · intro net devs h
    cases net with
    | transportFailure => exact absurd h (by simp [DevDataServerStrategy.fetch_devices, requestsGet, Except.bind, bind])
    | response st body =>
      by_cases hst : 400 ≤ st ∧ st < 600
      · exact absurd h (by
          unfold DevDataServerStrategy.fetch_devices
          simp [requestsGet, raiseForStatus, hst, Except.bind, bind])
      · cases hjl : jsonLoads body with
        | none => exact absurd h (by
            unfold DevDataServerStrategy.fetch_devices
            simp [requestsGet, raiseForStatus, hst, respJson, jsonLoadsE,
              hjl, Except.bind, bind])
        | some v => exact ⟨st, body, v, rfl, hst, hjl⟩
  · intro rand net devs h
    cases net with
    | transportFailure => exact absurd h (by simp [OmnAIScopeStrategy.fetch_devices, requestsGet, Except.bind, bind])
    | response st body =>
      by_cases hst : 400 ≤ st ∧ st < 600
      · exact absurd h (by
          unfold OmnAIScopeStrategy.fetch_devices
          simp [requestsGet, raiseForStatus, hst, Except.bind, bind])
      · cases hjl : jsonLoads body with
        | none => exact absurd h (by
            unfold OmnAIScopeStrategy.fetch_devices
            simp [requestsGet, raiseForStatus, hst, respJson, jsonLoadsE,
              hjl, Except.bind, bind])
        | some v => exact ⟨st, body, v, rfl, hst, hjl⟩

/-- Witness for C6: a concrete HTTP 500 with a well-formed body still
fails (no silent empty-list fallback). -/
theorem c6_witness :
    DevDataServerStrategy.fetch_devices
        (.response 500 ("\x7b\"datastreams\":[]\x7d").data)
      = .error (.httpError 500) :=
  ((c6_device_fetch_error_containment.2.1 500
    ("\x7b\"datastreams\":[]\x7d").data (by decide) (by decide)).1)
